import Mathlib

/-!
Verification development for the memory-enterprise-mcp repository.

Two parts are modelled:

1. The JSON-RPC-over-event-stream transport layer (Session Registry,
   Stream Dispatcher, Request Processor, Batch Coordinator, Notification
   Queue).  The server implementation of this layer is not present in
   the repository snapshot (only client-side usage examples in
   `CLAUDE_DESKTOP_INTEGRATION.md` refer to it), so these definitions
   are modelled from the specification text (sections 3, 4.1-4.4).

2. The knowledge-item API route
   (`frontend/app/api/knowledge/[id]/route.ts`), translated directly
   from the TypeScript source.
-/

namespace Transport

/-- A minimal JSON value, standing in for the structured `params` /
`result` payloads carried by envelopes. -/
inductive JValue where
  | null : JValue
  | bool : Bool → JValue
  | num : Int → JValue
  | str : String → JValue
  | arr : List JValue → JValue
  | obj : List (String × JValue) → JValue

instance : Inhabited JValue := ⟨JValue.null⟩

/-- A JSON-RPC id: `optional string|number` per the spec's data model. -/
inductive JsonId where
  | str : String → JsonId
  | num : Int → JsonId
deriving DecidableEq

/-- Modelled from the spec: the error taxonomy of section 7. -/
inductive ErrorKind where
  | invalidRequest
  | methodNotFound
  | invalidParams
  | internalError
  | sessionNotFound
  | sessionConflict
  | notInitialized
deriving DecidableEq

/-- Modelled from the spec: a request envelope (client to server).
Presence of `id` distinguishes a request (response required) from a
notification (fire-and-forget). -/
structure Envelope where
  method : String
  params : Option JValue := none
  id : Option JsonId := none

/-- A response carries either a `result` or an `error` (never both). -/
inductive ROutcome where
  | result : JValue → ROutcome
  | error : ErrorKind → String → ROutcome

/-- Modelled from the spec: a response envelope, echoing the
originating `id`. -/
structure Response where
  id : JsonId
  outcome : ROutcome

instance : Inhabited Response :=
  ⟨{ id := JsonId.num 0, outcome := ROutcome.error ErrorKind.internalError "" }⟩

/-- Outcome of a tool/method executor: a result, or an error kind with
handler-supplied detail (spec section 6: executors return
`(result) | (errorKind, detail)`). -/
inductive HandlerErr where
  | invalidParams : String → HandlerErr
  | failure : String → HandlerErr

/-- An executor function for one registered method. -/
def Handler : Type := Option JValue → Except HandlerErr JValue

/-- The method/tool registry: named executors. -/
def MethodRegistry : Type := List (String × Handler)

/-- Look up a method by name in the registry. -/
def findHandler (reg : MethodRegistry) (name : String) : Option Handler :=
  match reg with
  | [] => none
  | (k, h) :: t => if k = name then some h else findHandler t name

/-- Result of executing one envelope: the produced response (none for
notifications) together with whether the registered handler ran. -/
structure ExecResult where
  response : Option Response
  handlerRan : Bool

/-- Modelled from the spec: `execute(envelope, sessionId)` of the
Request Processor (section 4.3), whose server implementation is missing
from the snapshot.  Unknown method yields `MethodNotFound`; executor
errors map to `InvalidParams` / `InternalError`.  If `envelope.id` is
absent the call is a notification: the handler still executes but no
Response is produced regardless of outcome. -/
def execute (reg : MethodRegistry) (env : Envelope) : ExecResult :=
  match findHandler reg env.method, env.id with
  | none, none => ⟨none, false⟩
  | none, some rid =>
    ⟨some ⟨rid, ROutcome.error ErrorKind.methodNotFound ("Method not found")⟩, false⟩
  | some _, none => ⟨none, true⟩
  | some h, some rid =>
    match h env.params with
    | Except.ok v => ⟨some ⟨rid, ROutcome.result v⟩, true⟩
    | Except.error (HandlerErr.invalidParams d) =>
      ⟨some ⟨rid, ROutcome.error ErrorKind.invalidParams d⟩, true⟩
    | Except.error (HandlerErr.failure d) =>
      ⟨some ⟨rid, ROutcome.error ErrorKind.internalError d⟩, true⟩

/-- Modelled from the spec: `executeBatch(envelopes[], sessionId)` of
the Batch Coordinator (section 4.4), whose server implementation is
missing from the snapshot.  An empty array is a protocol error
(`InvalidRequest`); otherwise each element is dispatched independently
and the output collects one Response per request-type element in input
order, omitting notifications. -/
def executeBatch (reg : MethodRegistry) (envs : List Envelope) :
    Except ErrorKind (List Response) :=
  match envs with
  | [] => Except.error ErrorKind.invalidRequest
  | _ :: _ => Except.ok (envs.filterMap (fun e => (execute reg e).response))

/-- An envelope produces a response exactly when it carries an id. -/
theorem execute_response_isSome (reg : MethodRegistry) (env : Envelope) :
    ((execute reg env).response).isSome = env.id.isSome := by
  unfold execute
  cases findHandler reg env.method with
  | none => cases env.id <;> simp
  | some h =>
    cases env.id with
    | none => simp
    | some rid =>
      cases hv : h env.params with
      | ok v => simp [hv]
      | error e => cases e <;> simp [hv]

theorem execute_response_none_of_notification (reg : MethodRegistry)
    (env : Envelope) (h : env.id = none) :
    (execute reg env).response = none := by
  have hs := execute_response_isSome reg env
  rw [h] at hs
  cases hr : (execute reg env).response with
  | none => rfl
  | some r => rw [hr] at hs; simp at hs

/-- filterMap over a list where definedness of `g` is decided by `p`
equals mapping the forced value of `g` over the `p`-filtered list. -/
theorem filterMap_eq_map_filter {α β : Type} [Inhabited β]
    (g : α → Option β) (p : α → Bool)
    (hg : ∀ a, (g a).isSome = p a) (l : List α) :
    l.filterMap g = (l.filter p).map (fun a => (g a).getD default) := by
  induction l with
  | nil => simp
  | cons a t ih =>
    cases hga : g a with
    | none =>
      have hpa : p a = false := by
        have := hg a
        rw [hga] at this
        simpa using this.symm
      simp [List.filterMap_cons, hga, List.filter_cons, hpa, ih]
    | some b =>
      have hpa : p a = true := by
        have := hg a
        rw [hga] at this
        simpa using this.symm
      simp [List.filterMap_cons, hga, List.filter_cons, hpa, ih]

/-- A server-originated notification: `{method, params}` and no id. -/
structure SNotification where
  method : String
  params : JValue

instance : Inhabited SNotification := ⟨{ method := "", params := JValue.null }⟩

/-- Session lifecycle states (spec section 3). -/
inductive SState where
  | pending
  | active
  | closed
deriving DecidableEq

/-- Modelled from the spec: a session record — lifecycle state, the
ordered per-session Notification Queue, and a last-activity stamp.
The Session Registry implementation is missing from the snapshot. -/
structure Session where
  state : SState
  queue : List SNotification
  lastActivity : Nat

/-- The Session Registry's table: sessions keyed by opaque id. -/
def SessionRegistry : Type := List (String × Session)

/-- Look up a session by id. -/
def findSession (reg : SessionRegistry) (sid : String) : Option Session :=
  match reg with
  | [] => none
  | (k, s) :: t => if k = sid then some s else findSession t sid

/-- Modelled from the spec: a handler pushes an async event by
enqueueing into the session's Notification Queue; enqueue order is
delivery order (FIFO), so new entries go to the back. -/
def enqueue (reg : SessionRegistry) (sid : String) (n : SNotification) :
    SessionRegistry :=
  reg.map (fun p =>
    (p.1, if p.1 = sid then { p.2 with queue := p.2.queue ++ [n] } else p.2))

/-- Modelled from the spec: `close(id)` of the Session Registry
(section 4.1) — transitions the session to `closed` and releases its
queue memory; idempotent. -/
def close (reg : SessionRegistry) (sid : String) : SessionRegistry :=
  reg.map (fun p =>
    (p.1,
      if p.1 = sid then { p.2 with state := SState.closed, queue := [] }
      else p.2))

/-- The `session.connected` handshake notification carrying the session
id (params key as used by the client in CLAUDE_DESKTOP_INTEGRATION.md). -/
def connectedNote (sid : String) : SNotification :=
  { method := "session.connected",
    params := JValue.obj [("session_id", JValue.str sid)] }

/-- The periodic `session.heartbeat` liveness notification. -/
def heartbeatNote : SNotification :=
  { method := "session.heartbeat", params := JValue.obj [] }

/-- Modelled from the spec: the event sequence the Stream Dispatcher
emits on a fresh attachment (section 4.2), with the server
implementation missing from the snapshot.  Fails with `SessionNotFound`
on an unknown id; otherwise the stream carries, in order: the
`session.connected` handshake, the queued notifications drained FIFO,
and then — with no further enqueues — `k` periodic heartbeats. -/
def attachStream (reg : SessionRegistry) (sid : String) (k : Nat) :
    Except ErrorKind (List SNotification) :=
  match findSession reg sid with
  | none => Except.error ErrorKind.sessionNotFound
  | some s =>
    Except.ok (connectedNote sid :: (s.queue ++ List.replicate k heartbeatNote))

/-- Enqueueing on a present session appends to the back of its queue. -/
theorem findSession_enqueue (reg : SessionRegistry) (sid : String)
    (n : SNotification) :
    findSession (enqueue reg sid n) sid =
      (findSession reg sid).map (fun s => { s with queue := s.queue ++ [n] }) := by
  induction reg with
  | nil => rfl
  | cons p t ih =>
    obtain ⟨a, s⟩ := p
    by_cases hp : a = sid
    · subst hp
      simp [enqueue, findSession]
    · simp only [enqueue, List.map_cons] at ih ⊢
      simpa [findSession, hp] using ih

/-- Closing twice is the same as closing once. -/
theorem close_close (reg : SessionRegistry) (sid : String) :
    close (close reg sid) sid = close reg sid := by
  induction reg with
  | nil => rfl
  | cons p t ih =>
    obtain ⟨a, s⟩ := p
    simp only [close, List.map_cons] at ih ⊢
    by_cases hp : a = sid
    · subst hp
      simp [ih]
    · simp [hp, ih]

/-- After `close`, the session (when present) is closed with an empty
queue. -/
theorem findSession_close (reg : SessionRegistry) (sid : String) :
    findSession (close reg sid) sid =
      (findSession reg sid).map
        (fun s => { s with state := SState.closed, queue := [] }) := by
  induction reg with
  | nil => rfl
  | cons p t ih =>
    obtain ⟨a, s⟩ := p
    by_cases hp : a = sid
    · subst hp
      simp [close, findSession]
    · simp only [close, List.map_cons] at ih ⊢
      simpa [findSession, hp] using ih

end Transport

namespace KnowledgeApi

/-- A knowledge item, as in the `Knowledge` interface of
`frontend/app/api/knowledge/[id]/route.ts`.  Optional fields carry file
metadata for uploaded items. -/
structure Knowledge where
  id : String
  title : String
  content : String
  tags : List String
  created : String
  updated : String
  type : String
  fileName : Option String
  fileSize : Option Nat
  filePath : Option String
deriving DecidableEq

/-- The `tags` field of a PUT body: the route accepts either a
comma-separated string or an array. -/
inductive TagsField where
  | str : String → TagsField
  | arr : List String → TagsField
deriving DecidableEq

/-- The fields destructured from the PUT request body:
`const { title, content, tags, type } = body`. -/
structure PutBody where
  title : String
  content : String
  tags : TagsField
  type : String

/-- Response body shapes produced by the route handlers. -/
inductive ApiBody where
  | errMsg : String → ApiBody
  | item : Knowledge → ApiBody
  | success : ApiBody
deriving DecidableEq

/-- HTTP status plus JSON body, as returned by `NextResponse.json`. -/
structure ApiResponse where
  status : Nat
  body : ApiBody
deriving DecidableEq

/-- `tags.split(',').map(t => t.trim()).filter(Boolean)` from the PUT
handler. -/
def splitTags (s : String) : List String :=
  ((s.splitOn (",")).map String.trim).filter (fun t => !t.isEmpty)

/-- Normalisation of the PUT body's `tags` field:
`typeof tags === 'string' ? tags.split(',')... : tags`. -/
def tagsOf : TagsField → List String
  | TagsField.str s => splitTags s
  | TagsField.arr a => a

/-- The spread-update `knowledge[index] = { ...knowledge[index], title,
content, tags: ..., type, updated: new Date().toISOString() }` of the
PUT handler; `now` stands for the serialized current time. -/
def updateItem (k : Knowledge) (body : PutBody) (now : String) : Knowledge :=
  { k with
    title := body.title
    content := body.content
    tags := tagsOf body.tags
    type := body.type
    updated := now }

/-- `knowledge.findIndex(k => k.id === params.id)`: the index of the
first item with the given id, `length` when absent (the source compares
the result with -1; here absence is `length ≤ index`). -/
def knowledgeIdx (store : List Knowledge) (id : String) : Nat :=
  store.findIdx (fun k => k.id == id)

/-- The GET handler on `knowledge/[id]`: returns the found item, or 404
with an error body.  The store is read-only here; it is returned so all
three handlers expose the post-state. -/
def getKnowledge (store : List Knowledge) (id : String) :
    ApiResponse × List Knowledge :=
  match store.find? (fun k => k.id == id) with
  | none => (⟨404, ApiBody.errMsg ("Knowledge item not found")⟩, store)
  | some item => (⟨200, ApiBody.item item⟩, store)

/-- The PUT handler on `knowledge/[id]`: finds the item by id, replaces
title/content/tags/type/updated via spread-update, writes the array
back, and responds with the updated item; 404 when the id is absent. -/
def putKnowledge (store : List Knowledge) (id : String) (body : PutBody)
    (now : String) : ApiResponse × List Knowledge :=
  if h : knowledgeIdx store id < store.length then
    (⟨200, ApiBody.item (updateItem (store.get ⟨knowledgeIdx store id, h⟩) body now)⟩,
      store.set (knowledgeIdx store id)
        (updateItem (store.get ⟨knowledgeIdx store id, h⟩) body now))
  else
    (⟨404, ApiBody.errMsg ("Knowledge item not found")⟩, store)

/-- The DELETE handler on `knowledge/[id]`: removes the item at the
found index via `splice(index, 1)` and responds `{success: true}`; 404
when the id is absent.  (The companion unlink of an uploaded file is a
filesystem side effect outside the store model.) -/
def deleteKnowledge (store : List Knowledge) (id : String) :
    ApiResponse × List Knowledge :=
  if knowledgeIdx store id < store.length then
    (⟨200, ApiBody.success⟩, store.eraseIdx (knowledgeIdx store id))
  else
    (⟨404, ApiBody.errMsg ("Knowledge item not found")⟩, store)

end KnowledgeApi

namespace Transport

/-- C1: a batch of N request-type and M notification-type envelopes
yields exactly N Response elements, the i-th of which is the response
of the i-th request-type input (so outputs keep the relative order of
the request-type inputs, and notifications contribute no element). -/
theorem batch_responses_ordered (reg : MethodRegistry) (envs : List Envelope)
    (rs : List Response) (h : executeBatch reg envs = Except.ok rs) :
    rs.length = (envs.filter (fun e => e.id.isSome)).length ∧
      ∀ i (hi : i < rs.length)
        (hj : i < (envs.filter (fun e => e.id.isSome)).length),
        some (rs.get ⟨i, hi⟩) =
          (execute reg ((envs.filter (fun e => e.id.isSome)).get ⟨i, hj⟩)).response := by
  have hrs : rs = (envs.filter (fun e => e.id.isSome)).map
      (fun e => ((execute reg e).response).getD default) := by
    cases envs with
    | nil => simp [executeBatch] at h
    | cons a t =>
      have h' : (a :: t).filterMap (fun e => (execute reg e).response) = rs := by
        simpa [executeBatch] using h
      rw [← h']
      exact filterMap_eq_map_filter _ _ (fun e => execute_response_isSome reg e) _
  subst hrs
  refine ⟨by simp, ?_⟩
  intro i hi hj
  set e := (envs.filter (fun e => e.id.isSome)).get ⟨i, hj⟩ with he
  have hmem : e ∈ envs.filter (fun e => e.id.isSome) := by
    exact List.get_mem _ _ _
  have hsome : ((execute reg e).response).isSome = true := by
    rw [execute_response_isSome]
    exact (List.mem_filter.mp hmem).2
  have hget : ((envs.filter (fun e => e.id.isSome)).map
      (fun e => ((execute reg e).response).getD default)).get ⟨i, hi⟩ =
      ((execute reg e).response).getD default := by
    simp [List.get_eq_getElem, List.getElem_map, he]
  rw [hget]
  cases hr : (execute reg e).response with
  | none => rw [hr] at hsome; simp at hsome
  | some r => simp [hr]

/-- C1 witness: a concrete batch of two requests around one
notification yields the two responses in input order. -/
theorem batch_responses_ordered_witness :
    ([{ id := JsonId.num 1, outcome := ROutcome.result (JValue.num 1) },
      { id := JsonId.num 2,
        outcome := ROutcome.error ErrorKind.methodNotFound ("Method not found") }]
        : List Response).length =
      (([{ method := "echo", params := some (JValue.num 1), id := some (JsonId.num 1) },
         { method := "echo", params := none, id := none },
         { method := "missing", params := none, id := some (JsonId.num 2) }]
          : List Envelope).filter (fun e => e.id.isSome)).length ∧
      ∀ i (hi : i < ([{ id := JsonId.num 1, outcome := ROutcome.result (JValue.num 1) },
          { id := JsonId.num 2,
            outcome := ROutcome.error ErrorKind.methodNotFound ("Method not found") }]
            : List Response).length)
        (hj : i < (([{ method := "echo", params := some (JValue.num 1), id := some (JsonId.num 1) },
           { method := "echo", params := none, id := none },
           { method := "missing", params := none, id := some (JsonId.num 2) }]
            : List Envelope).filter (fun e => e.id.isSome)).length),
        some (([{ id := JsonId.num 1, outcome := ROutcome.result (JValue.num 1) },
          { id := JsonId.num 2,
            outcome := ROutcome.error ErrorKind.methodNotFound ("Method not found") }]
            : List Response).get ⟨i, hi⟩) =
          (execute [("echo", fun p => Except.ok (p.getD JValue.null))]
            ((([{ method := "echo", params := some (JValue.num 1), id := some (JsonId.num 1) },
              { method := "echo", params := none, id := none },
              { method := "missing", params := none, id := some (JsonId.num 2) }]
                : List Envelope).filter (fun e => e.id.isSome)).get ⟨i, hj⟩)).response :=
  batch_responses_ordered
    [("echo", fun p => Except.ok (p.getD JValue.null))]
    [{ method := "echo", params := some (JValue.num 1), id := some (JsonId.num 1) },
     { method := "echo", params := none, id := none },
     { method := "missing", params := none, id := some (JsonId.num 2) }]
    [{ id := JsonId.num 1, outcome := ROutcome.result (JValue.num 1) },
     { id := JsonId.num 2,
       outcome := ROutcome.error ErrorKind.methodNotFound ("Method not found") }]
    (by rfl)

/-- C2: the empty batch is rejected with `InvalidRequest`, while a
non-empty batch of notifications only succeeds with an empty result. -/
theorem batch_empty_vs_all_notifications (reg : MethodRegistry)
    (envs : List Envelope) (hne : envs ≠ [])
    (hall : ∀ e ∈ envs, e.id = none) :
    executeBatch reg ([] : List Envelope) =
        Except.error ErrorKind.invalidRequest ∧
      executeBatch reg envs = Except.ok ([] : List Response) := by
  refine ⟨rfl, ?_⟩
  cases envs with
  | nil => exact absurd rfl hne
  | cons a t =>
    simp only [executeBatch, Except.ok.injEq]
    rw [List.filterMap_eq_nil_iff]
    intro e hmem
    exact execute_response_none_of_notification reg e (hall e hmem)

/-- C2 witness: concrete empty batch and a one-notification batch. -/
theorem batch_empty_vs_all_notifications_witness :
    executeBatch [] ([] : List Envelope) =
        Except.error ErrorKind.invalidRequest ∧
      executeBatch [] [{ method := "note", params := none, id := none }] =
        Except.ok ([] : List Response) :=
  batch_empty_vs_all_notifications []
    [{ method := "note", params := none, id := none }]
    (by simp) (by intro e hmem; simp at hmem; rw [hmem])

/-- C3: an envelope without an id is a notification — `execute`
produces no Response (whatever the handler outcome), and when a handler
is registered for its method, the handler still runs. -/
theorem notification_no_response (reg : MethodRegistry) (env : Envelope)
    (h : env.id = none) :
    (execute reg env).response = none ∧
      ((findHandler reg env.method).isSome = true →
        (execute reg env).handlerRan = true) := by
  refine ⟨execute_response_none_of_notification reg env h, ?_⟩
  intro hh
  unfold execute
  cases hf : findHandler reg env.method with
  | none => rw [hf] at hh; simp at hh
  | some hdl => rw [h]

/-- C3 witness: a notification whose handler is registered and fails. -/
theorem notification_no_response_witness :
    (execute [("note", fun _ => Except.error (HandlerErr.failure ("boom")))]
        { method := "note", params := none, id := none }).response = none ∧
      ((findHandler
          [("note", fun _ => Except.error (HandlerErr.failure ("boom")))]
          "note").isSome = true →
        (execute [("note", fun _ => Except.error (HandlerErr.failure ("boom")))]
            { method := "note", params := none, id := none }).handlerRan = true) :=
  notification_no_response
    [("note", fun _ => Except.error (HandlerErr.failure ("boom")))]
    { method := "note", params := none, id := none } rfl

/-- Any response produced by `execute` carries the envelope's id. -/
theorem execute_id_eq (reg : MethodRegistry) (env : Envelope) (r : Response)
    (hr : (execute reg env).response = some r) : env.id = some r.id := by
  unfold execute at hr
  split at hr
  · exact absurd hr (by simp)
  · next rid heq =>
    rw [heq]
    cases hr
    rfl
  · exact absurd hr (by simp)
  · next hdl rid hf heq =>
    rw [heq]
    split at hr <;> (cases hr; rfl)

/-- C4: the Response to a request-type envelope echoes the request's
id. -/
theorem response_echoes_id (reg : MethodRegistry) (env : Envelope)
    (rid : JsonId) (h : env.id = some rid) :
    ∃ r, (execute reg env).response = some r ∧ r.id = rid := by
  have hs := execute_response_isSome reg env
  rw [h] at hs
  cases hr : (execute reg env).response with
  | none => rw [hr] at hs; simp at hs
  | some r =>
    have hid := execute_id_eq reg env r hr
    rw [h] at hid
    exact ⟨r, rfl, (Option.some_inj.mp hid).symm⟩

/-- C4 witness: a concrete request through a registered handler. -/
theorem response_echoes_id_witness :
    ∃ r, (execute [("echo", fun p => Except.ok (p.getD JValue.null))]
        { method := "echo", params := some (JValue.num 1),
          id := some (JsonId.str ("1")) }).response = some r ∧
      r.id = JsonId.str ("1") :=
  response_echoes_id [("echo", fun p => Except.ok (p.getD JValue.null))]
    { method := "echo", params := some (JValue.num 1),
      id := some (JsonId.str ("1")) }
    (JsonId.str ("1")) rfl

/-- C5: enqueueing A then B into a session's queue while no stream is
attached, then attaching, delivers A strictly before B on the stream
(FIFO). -/
theorem fifo_delivery (reg : SessionRegistry) (sid : String) (s : Session)
    (A B : SNotification) (k : Nat)
    (hs : findSession reg sid = some s)
    (_hstate : s.state ≠ SState.active) :
    ∃ evs,
      attachStream (enqueue (enqueue reg sid A) sid B) sid k =
          Except.ok evs ∧
        evs[s.queue.length + 1]? = some A ∧
        evs[s.queue.length + 2]? = some B ∧
        s.queue.length + 1 < s.queue.length + 2 := by
  have h1 : findSession (enqueue reg sid A) sid =
      some { s with queue := s.queue ++ [A] } := by
    rw [findSession_enqueue, hs]
    rfl
  have h2 : findSession (enqueue (enqueue reg sid A) sid B) sid =
      some { s with queue := (s.queue ++ [A]) ++ [B] } := by
    rw [findSession_enqueue, h1]
    rfl
  refine ⟨connectedNote sid ::
      (((s.queue ++ [A]) ++ [B]) ++ List.replicate k heartbeatNote),
    ?_, ?_, ?_, by omega⟩
  · unfold attachStream
    rw [h2]
  · rw [List.getElem?_cons_succ, List.append_assoc, List.append_assoc,
      List.getElem?_append_right (le_refl _)]
    simp
  · rw [show s.queue.length + 2 = (s.queue.length + 1) + 1 from rfl,
      List.getElem?_cons_succ, List.append_assoc, List.append_assoc,
      List.getElem?_append_right (Nat.le_succ _)]
    simp

/-- C5 witness: two notifications queued on a pending session come out
in enqueue order right after the handshake. -/
theorem fifo_delivery_witness :
    ∃ evs,
      attachStream
          (enqueue
            (enqueue [("s1", { state := SState.pending, queue := [], lastActivity := 0 })]
              "s1" { method := "a", params := JValue.null })
            "s1" { method := "b", params := JValue.null })
          "s1" 1 = Except.ok evs ∧
        evs[1]? = some { method := "a", params := JValue.null } ∧
        evs[2]? = some { method := "b", params := JValue.null } ∧
        1 < 2 :=
  fifo_delivery
    [("s1", { state := SState.pending, queue := [], lastActivity := 0 })]
    "s1" { state := SState.pending, queue := [], lastActivity := 0 }
    { method := "a", params := JValue.null }
    { method := "b", params := JValue.null } 1 rfl (by decide)

/-- C6: immediately after a successful attach, the very first event on
the stream is a `session.connected` notification whose params carry the
session id — it precedes every queued notification and heartbeat. -/
theorem attach_first_connected (reg : SessionRegistry) (sid : String)
    (k : Nat) (evs : List SNotification)
    (h : attachStream reg sid k = Except.ok evs) :
    evs.head? = some { method := "session.connected",
                       params := JValue.obj [("session_id", JValue.str sid)] } := by
  unfold attachStream at h
  split at h
  · cases h
  · cases h
    rfl

/-- C6 witness: attaching to a concrete pending session. -/
theorem attach_first_connected_witness :
    ([connectedNote ("sX")] : List SNotification).head? =
      some { method := "session.connected",
             params := JValue.obj [("session_id", JValue.str ("sX"))] } :=
  attach_first_connected
    [("sX", { state := SState.pending, queue := [], lastActivity := 0 })]
    "sX" 0 [connectedNote ("sX")] (by rfl)

/-- C7: `close` is idempotent — a second close changes nothing — and
already after the first close the session is in `closed` state with its
queue memory released. -/
theorem close_idempotent_released (reg : SessionRegistry) (sid : String) :
    close (close reg sid) sid = close reg sid ∧
      findSession (close reg sid) sid =
        (findSession reg sid).map
          (fun s => { s with state := SState.closed, queue := [] }) :=
  ⟨close_close reg sid, findSession_close reg sid⟩

end Transport

namespace KnowledgeApi

/-- When no stored item matches, `findIdx` returns the store's length. -/
theorem knowledgeIdx_of_no_match (store : List Knowledge) (id : String)
    (h : ∀ k ∈ store, (k.id == id) = false) :
    knowledgeIdx store id = store.length :=
  List.findIdx_eq_length.mpr h

/-- C8: a GET, PUT, or DELETE with an id matching no stored item
responds 404 with the not-found error body, and leaves the stored
knowledge list unchanged. -/
theorem missing_id_404 (store : List Knowledge) (id : String)
    (h : ∀ k ∈ store, (k.id == id) = false) :
    getKnowledge store id =
        (⟨404, ApiBody.errMsg ("Knowledge item not found")⟩, store) ∧
      (∀ body now, putKnowledge store id body now =
        (⟨404, ApiBody.errMsg ("Knowledge item not found")⟩, store)) ∧
      deleteKnowledge store id =
        (⟨404, ApiBody.errMsg ("Knowledge item not found")⟩, store) := by
  have hfind : store.find? (fun k => k.id == id) = none :=
    List.find?_eq_none.mpr (fun k hk => by simp [h k hk])
  have hidx : knowledgeIdx store id = store.length :=
    knowledgeIdx_of_no_match store id h
  refine ⟨?_, ?_, ?_⟩
  · unfold getKnowledge
    rw [hfind]
  · intro body now
    unfold putKnowledge
    rw [dif_neg (by rw [hidx]; exact lt_irrefl _)]
  · unfold deleteKnowledge
    rw [if_neg (by rw [hidx]; exact lt_irrefl _)]

/-- C8 witness: one stored item, a request for a different id. -/
theorem missing_id_404_witness :
    getKnowledge
        [{ id := "a", title := "t", content := "c", tags := [],
           created := "d1", updated := "d2", type := "note",
           fileName := none, fileSize := none, filePath := none }] "zzz" =
        (⟨404, ApiBody.errMsg ("Knowledge item not found")⟩,
          [{ id := "a", title := "t", content := "c", tags := [],
             created := "d1", updated := "d2", type := "note",
             fileName := none, fileSize := none, filePath := none }]) ∧
      (∀ body now, putKnowledge
          [{ id := "a", title := "t", content := "c", tags := [],
             created := "d1", updated := "d2", type := "note",
             fileName := none, fileSize := none, filePath := none }] "zzz" body now =
        (⟨404, ApiBody.errMsg ("Knowledge item not found")⟩,
          [{ id := "a", title := "t", content := "c", tags := [],
             created := "d1", updated := "d2", type := "note",
             fileName := none, fileSize := none, filePath := none }])) ∧
      deleteKnowledge
          [{ id := "a", title := "t", content := "c", tags := [],
             created := "d1", updated := "d2", type := "note",
             fileName := none, fileSize := none, filePath := none }] "zzz" =
        (⟨404, ApiBody.errMsg ("Knowledge item not found")⟩,
          [{ id := "a", title := "t", content := "c", tags := [],
             created := "d1", updated := "d2", type := "note",
             fileName := none, fileSize := none, filePath := none }]) :=
  missing_id_404
    [{ id := "a", title := "t", content := "c", tags := [],
       created := "d1", updated := "d2", type := "note",
       fileName := none, fileSize := none, filePath := none }] "zzz"
    (by decide)

/-- On a hit, PUT writes back the store with only the targeted index
replaced by the spread-updated item. -/
theorem putKnowledge_store_eq (store : List Knowledge) (id : String)
    (body : PutBody) (now : String)
    (h : knowledgeIdx store id < store.length) :
    (putKnowledge store id body now).2 =
      store.set (knowledgeIdx store id)
        (updateItem (store.get ⟨knowledgeIdx store id, h⟩) body now) := by
  unfold putKnowledge
  rw [dif_pos h]

end KnowledgeApi

namespace KnowledgeApi

/-- C9: a successful PUT preserves every other stored item, and in the
targeted item it preserves `id`, `created`, `fileName`, `fileSize`, and
`filePath`, replacing exactly `title`, `content`, `tags`, `type`, and
`updated`. -/
theorem put_frame_preserved (store : List Knowledge) (id : String)
    (body : PutBody) (now : String)
    (h : knowledgeIdx store id < store.length) :
    ((putKnowledge store id body now).2).length = store.length ∧
      (∀ j, j ≠ knowledgeIdx store id →
        ((putKnowledge store id body now).2)[j]? = store[j]?) ∧
      ∃ k k',
        store[knowledgeIdx store id]? = some k ∧
        ((putKnowledge store id body now).2)[knowledgeIdx store id]? = some k' ∧
        k'.id = k.id ∧ k'.created = k.created ∧ k'.fileName = k.fileName ∧
        k'.fileSize = k.fileSize ∧ k'.filePath = k.filePath ∧
        k'.title = body.title ∧ k'.content = body.content ∧
        k'.tags = tagsOf body.tags ∧ k'.type = body.type ∧
        k'.updated = now := by
  rw [putKnowledge_store_eq store id body now h]
  refine ⟨List.length_set .., ?_, ?_⟩
  · intro j hj
    exact List.getElem?_set_ne (Ne.symm hj)
  · refine ⟨store.get ⟨knowledgeIdx store id, h⟩,
      updateItem (store.get ⟨knowledgeIdx store id, h⟩) body now, ?_, ?_,
      rfl, rfl, rfl, rfl, rfl, rfl, rfl, rfl, rfl, rfl⟩
    · rw [List.getElem?_eq_getElem h]
      rfl
    · exact List.getElem?_set_self h

/-- C9 witness: updating the second of two stored items. -/
theorem put_frame_preserved_witness :
    ((putKnowledge
        [{ id := "a", title := "ta", content := "ca", tags := [],
           created := "d1", updated := "d2", type := "note",
           fileName := none, fileSize := none, filePath := none },
         { id := "b", title := "tb", content := "cb", tags := ["x"],
           created := "d3", updated := "d4", type := "file",
           fileName := some "f.txt", fileSize := some 7,
           filePath := some "p" }] "b"
        { title := "new", content := "nc", tags := TagsField.arr ["y"],
          type := "note" } "d5").2).length =
      ([{ id := "a", title := "ta", content := "ca", tags := [],
          created := "d1", updated := "d2", type := "note",
          fileName := none, fileSize := none, filePath := none },
        { id := "b", title := "tb", content := "cb", tags := ["x"],
          created := "d3", updated := "d4", type := "file",
          fileName := some "f.txt", fileSize := some 7,
          filePath := some "p" }] : List Knowledge).length ∧
      (∀ j, j ≠ knowledgeIdx
          [{ id := "a", title := "ta", content := "ca", tags := [],
             created := "d1", updated := "d2", type := "note",
             fileName := none, fileSize := none, filePath := none },
           { id := "b", title := "tb", content := "cb", tags := ["x"],
             created := "d3", updated := "d4", type := "file",
             fileName := some "f.txt", fileSize := some 7,
             filePath := some "p" }] "b" →
        ((putKnowledge
            [{ id := "a", title := "ta", content := "ca", tags := [],
               created := "d1", updated := "d2", type := "note",
               fileName := none, fileSize := none, filePath := none },
             { id := "b", title := "tb", content := "cb", tags := ["x"],
               created := "d3", updated := "d4", type := "file",
               fileName := some "f.txt", fileSize := some 7,
               filePath := some "p" }] "b"
            { title := "new", content := "nc", tags := TagsField.arr ["y"],
              type := "note" } "d5").2)[j]? =
          ([{ id := "a", title := "ta", content := "ca", tags := [],
              created := "d1", updated := "d2", type := "note",
              fileName := none, fileSize := none, filePath := none },
            { id := "b", title := "tb", content := "cb", tags := ["x"],
              created := "d3", updated := "d4", type := "file",
              fileName := some "f.txt", fileSize := some 7,
              filePath := some "p" }] : List Knowledge)[j]?) ∧
      ∃ k k',
        ([{ id := "a", title := "ta", content := "ca", tags := [],
            created := "d1", updated := "d2", type := "note",
            fileName := none, fileSize := none, filePath := none },
          { id := "b", title := "tb", content := "cb", tags := ["x"],
            created := "d3", updated := "d4", type := "file",
            fileName := some "f.txt", fileSize := some 7,
            filePath := some "p" }] : List Knowledge)[knowledgeIdx
          [{ id := "a", title := "ta", content := "ca", tags := [],
             created := "d1", updated := "d2", type := "note",
             fileName := none, fileSize := none, filePath := none },
           { id := "b", title := "tb", content := "cb", tags := ["x"],
             created := "d3", updated := "d4", type := "file",
             fileName := some "f.txt", fileSize := some 7,
             filePath := some "p" }] "b"]? = some k ∧
        ((putKnowledge
            [{ id := "a", title := "ta", content := "ca", tags := [],
               created := "d1", updated := "d2", type := "note",
               fileName := none, fileSize := none, filePath := none },
             { id := "b", title := "tb", content := "cb", tags := ["x"],
               created := "d3", updated := "d4", type := "file",
               fileName := some "f.txt", fileSize := some 7,
               filePath := some "p" }] "b"
            { title := "new", content := "nc", tags := TagsField.arr ["y"],
              type := "note" } "d5").2)[knowledgeIdx
          [{ id := "a", title := "ta", content := "ca", tags := [],
             created := "d1", updated := "d2", type := "note",
             fileName := none, fileSize := none, filePath := none },
           { id := "b", title := "tb", content := "cb", tags := ["x"],
             created := "d3", updated := "d4", type := "file",
             fileName := some "f.txt", fileSize := some 7,
             filePath := some "p" }] "b"]? = some k' ∧
        k'.id = k.id ∧ k'.created = k.created ∧ k'.fileName = k.fileName ∧
        k'.fileSize = k.fileSize ∧ k'.filePath = k.filePath ∧
        k'.title = "new" ∧ k'.content = "nc" ∧
        k'.tags = tagsOf (TagsField.arr ["y"]) ∧ k'.type = "note" ∧
        k'.updated = "d5" :=
  put_frame_preserved
    [{ id := "a", title := "ta", content := "ca", tags := [],
       created := "d1", updated := "d2", type := "note",
       fileName := none, fileSize := none, filePath := none },
     { id := "b", title := "tb", content := "cb", tags := ["x"],
       created := "d3", updated := "d4", type := "file",
       fileName := some "f.txt", fileSize := some 7, filePath := some "p" }]
    "b" { title := "new", content := "nc", tags := TagsField.arr ["y"],
          type := "note" } "d5" (by decide)

end KnowledgeApi

namespace KnowledgeApi

/-- C10: on a successful PUT, a string-valued `tags` body field is
stored as its comma-split segments, trimmed, with empty segments
dropped; an array-valued `tags` field is stored as given. -/
theorem put_tags_normalised (store : List Knowledge) (id : String)
    (title content ty now s : String) (a : List String)
    (h : knowledgeIdx store id < store.length) :
    (∃ k', ((putKnowledge store id
        { title := title, content := content, tags := TagsField.str s,
          type := ty } now).2)[knowledgeIdx store id]? = some k' ∧
        k'.tags =
          ((s.splitOn (",")).map String.trim).filter (fun t => !t.isEmpty)) ∧
      (∃ k', ((putKnowledge store id
        { title := title, content := content, tags := TagsField.arr a,
          type := ty } now).2)[knowledgeIdx store id]? = some k' ∧
        k'.tags = a) := by
  constructor
  · refine ⟨updateItem (store.get ⟨knowledgeIdx store id, h⟩)
      { title := title, content := content, tags := TagsField.str s,
        type := ty } now, ?_, rfl⟩
    rw [putKnowledge_store_eq store id
      { title := title, content := content, tags := TagsField.str s,
        type := ty } now h]
    exact List.getElem?_set_self h
  · refine ⟨updateItem (store.get ⟨knowledgeIdx store id, h⟩)
      { title := title, content := content, tags := TagsField.arr a,
        type := ty } now, ?_, rfl⟩
    rw [putKnowledge_store_eq store id
      { title := title, content := content, tags := TagsField.arr a,
        type := ty } now h]
    exact List.getElem?_set_self h

/-- C10 witness: updating a concrete item with a string tags field and
with an array tags field. -/
theorem put_tags_normalised_witness :
    (∃ k', ((putKnowledge
        [{ id := "a", title := "ta", content := "ca", tags := [],
           created := "d1", updated := "d2", type := "note",
           fileName := none, fileSize := none, filePath := none }] "a"
        { title := "t", content := "c", tags := TagsField.str (" x , ,y "),
          type := "note" } "d5").2)[knowledgeIdx
          [{ id := "a", title := "ta", content := "ca", tags := [],
             created := "d1", updated := "d2", type := "note",
             fileName := none, fileSize := none, filePath := none }] "a"]? =
          some k' ∧
        k'.tags = (((" x , ,y ").splitOn (",")).map String.trim).filter
          (fun t => !t.isEmpty)) ∧
      (∃ k', ((putKnowledge
        [{ id := "a", title := "ta", content := "ca", tags := [],
           created := "d1", updated := "d2", type := "note",
           fileName := none, fileSize := none, filePath := none }] "a"
        { title := "t", content := "c", tags := TagsField.arr ["p", "q"],
          type := "note" } "d5").2)[knowledgeIdx
          [{ id := "a", title := "ta", content := "ca", tags := [],
             created := "d1", updated := "d2", type := "note",
             fileName := none, fileSize := none, filePath := none }] "a"]? =
          some k' ∧
        k'.tags = ["p", "q"]) :=
  put_tags_normalised
    [{ id := "a", title := "ta", content := "ca", tags := [],
       created := "d1", updated := "d2", type := "note",
       fileName := none, fileSize := none, filePath := none }]
    "a" "t" "c" "note" "d5" (" x , ,y ") ["p", "q"] (by decide)

end KnowledgeApi
